import Mathlib

/-!
Shallow embedding of the real-time voice session client of fixie-sdk-js.

The primary model (`namespace FixieWeb`) follows
`src/packages/fixie-web/src/voice.ts` (class `VoiceSession`).
A secondary model (`namespace FixieVoiceLegacy`) follows the socket-close
handler of the older voice client found in `src/unnamed/part_002`.

Modelling conventions:
- Mutable instance fields of the `VoiceSession` class become fields of a
  Lean structure; each method becomes a function `VoiceSession → ... →
  VoiceSession × List Effect`, where `Effect` records the externally
  observable side effects (observer callbacks, track/data publication,
  socket creation).  `console.log`/`console.warn` calls that carry no
  information beyond the code path taken are not modelled, except that
  warning-level no-op paths emit a `warned` effect so that "warning-level
  no-op" claims can be stated.
- Optional object fields (`this.socket`, `this.room`, analyzers, the local
  track) become `Bool`/`Option` fields recording presence (plus the room's
  livekit connection state).
- `await` points split an operation into the events that can be observed
  around them: receiving `room_info` creates the room (connecting) and the
  resolution of `room.connect` is a separate `roomConnected` event.
- A thrown JavaScript exception is modelled with `Except`: `JSON.parse` on
  malformed input throws, and neither message handler catches.
-/

namespace FixieWeb

/-- States of a voice session, from `enum VoiceSessionState` in voice.ts. -/
inductive VoiceSessionState
  | disconnected
  | connecting
  | connected
  | idle
  | listening
  | thinking
  | speaking
deriving DecidableEq, Repr

/-- Connection states of a livekit `Room` (the subset this client consults). -/
inductive RoomState
  | connecting
  | connected
  | disconnected
deriving DecidableEq, Repr

/-- Model of the livekit `Room` object held in `this.room`. -/
structure Room where
  connState : RoomState
deriving DecidableEq, Repr

/-- Outbound data-channel messages built by `interrupt`, `sendText` and the pinger. -/
inductive OutMsg
  | interrupt
  | inputTextMessage (text : String)
  | ping (timestamp : Int)
deriving DecidableEq, Repr

/-- Observable side effects of the `VoiceSession` methods. -/
inductive Effect
  | stateChange (st : VoiceSessionState)
  | publishTrack
  | publishData (m : OutMsg)
  | errorFired
  | warned
  | openedSocket
  | sentInit
  | inputChange (text : String) (final : Bool)
  | outputChange (text : String) (final : Bool)
  | latencyChange (metric : String) (value : Int)
  | workerRttReported (echoedTimestamp : Int)
deriving DecidableEq, Repr

/-- Mutable state of a `VoiceSession` object.  `trackAttached` records the
history of `audioTrack.attach(this.audioElement)` having been called
(handleTrackSubscribed); it is not an instance field of the class but the
attach side effect of the audio element, which no code path ever detaches. -/
structure VoiceSession where
  _state : VoiceSessionState
  socket : Bool
  audioStarted : Bool
  started : Bool
  room : Option Room
  localAudioTrack : Bool
  delayedSpeakingState : Bool
  inAnalyzer : Bool
  outAnalyzer : Bool
  pinger : Bool
  outputTranscript : String
  conversationId : Option String
  audioElementMuted : Bool
  trackAttached : Bool
deriving DecidableEq, Repr

/-- Constructor of `VoiceSession` (voice.ts line 96): it only logs; every
field keeps its initializer.  `new Audio()` starts unmuted. -/
def mkVoiceSession (conversationId : Option String) : VoiceSession :=
  { _state := .disconnected
    socket := false
    audioStarted := false
    started := false
    room := none
    localAudioTrack := false
    delayedSpeakingState := false
    inAnalyzer := false
    outAnalyzer := false
    pinger := false
    outputTranscript := ""
    conversationId := conversationId
    audioElementMuted := false
    trackAttached := false }

/-- Method `changeState` (voice.ts line 209): on a genuine change it updates
`_state`, sets `audioElement.muted = state != SPEAKING`, and invokes the
`onStateChange` observer; otherwise it is a silent no-op. -/
def changeState (s : VoiceSession) (st : VoiceSessionState) :
    VoiceSession × List Effect :=
  if st ≠ s._state then
    ({ s with _state := st, audioElementMuted := st ≠ .speaking },
      [Effect.stateChange st])
  else
    (s, [])

/-- Method `warmup` (voice.ts line 121): a no-op unless the state is
DISCONNECTED; otherwise it creates the WebSocket, installs the handlers and
moves to CONNECTING.  Socket construction is modelled as succeeding. -/
def warmup (s : VoiceSession) : VoiceSession × List Effect :=
  if s._state ≠ VoiceSessionState.disconnected then
    (s, [])
  else
    let s1 := { s with socket := true }
    let r := changeState s1 .connecting
    (r.1, Effect.openedSocket :: r.2)

/-- Method `startAudio` (voice.ts line 142), with microphone acquisition
succeeding: captures the local track, builds the input analyzer and sets
`audioStarted`. -/
def startAudio (s : VoiceSession) : VoiceSession :=
  { s with localAudioTrack := true, inAnalyzer := true, audioStarted := true }

/-- Method `maybePublishLocalAudio` (voice.ts line 225): publishes the local
track and moves to IDLE only when the session is started, a room exists in
the connected state, and a local track exists. -/
def maybePublishLocalAudio (s : VoiceSession) : VoiceSession × List Effect :=
  match s.room with
  | some r =>
    if s.started ∧ r.connState = RoomState.connected ∧ s.localAudioTrack then
      let c := changeState s .idle
      (c.1, Effect.publishTrack :: c.2)
    else
      (s, [])
  | none => (s, [])

/-- Method `sendData` (voice.ts line 240): `this.room?.localParticipant.publishData(...)`.
The optional chain makes it a silent no-op when no room exists; when a room
object exists, `publishData` is invoked on it regardless of its connection
state. -/
def sendData (s : VoiceSession) (m : OutMsg) : List Effect :=
  match s.room with
  | some _ => [Effect.publishData m]
  | none => []

/-- Method `start` (voice.ts line 154), with `startAudio` succeeding: calls
`warmup`, warns and returns if already started, otherwise captures audio if
needed, marks the session started, and tries to publish. -/
def start (s : VoiceSession) : VoiceSession × List Effect :=
  let w := warmup s
  if w.1.started then
    (w.1, w.2 ++ [Effect.warned])
  else
    let s2 := if ¬ w.1.audioStarted then startAudio w.1 else w.1
    let s3 := { s2 with started := true }
    let p := maybePublishLocalAudio s3
    (p.1, w.2 ++ p.2)

/-- Method `stop` (voice.ts line 169), on the path where every step
succeeds: cancels the pinger, disconnects and drops the room, stops and
drops both analyzers and the local track, closes and drops the socket,
clears the started flags and transitions to DISCONNECTED. -/
def stop (s : VoiceSession) : VoiceSession × List Effect :=
  changeState
    { s with
      pinger := false
      room := none
      inAnalyzer := false
      outAnalyzer := false
      localAudioTrack := false
      socket := false
      audioStarted := false
      started := false }
    .disconnected

/-- Method `interrupt` (voice.ts line 189): warning no-op when not started,
otherwise sends an `interrupt` data message.  Never changes state. -/
def interrupt (s : VoiceSession) : List Effect :=
  if ¬ s.started then [Effect.warned]
  else sendData s OutMsg.interrupt

/-- Method `sendText` (voice.ts line 200): warning no-op outside LISTENING,
otherwise sends an `input_text_message` data message. -/
def sendText (s : VoiceSession) (text : String) : List Effect :=
  if s._state ≠ VoiceSessionState.listening then [Effect.warned]
  else sendData s (OutMsg.inputTextMessage text)

/-- Handler `handleSocketOpen` (voice.ts line 244): moves to CONNECTED and
sends the `init` message on the socket. -/
def handleSocketOpen (s : VoiceSession) : VoiceSession × List Effect :=
  let c := changeState s .connected
  (c.1, c.2 ++ [Effect.sentInit])

/-- Handler `handleSocketClose` (voice.ts line 290): always transitions to
DISCONNECTED; code 1000 only logs; any other code additionally fires the
`onError` observer.  No branch re-opens the socket. -/
def handleSocketClose (s : VoiceSession) (code : Nat) :
    VoiceSession × List Effect :=
  let c := changeState s .disconnected
  if code = 1000 then
    (c.1, c.2)
  else
    (c.1, c.2 ++ [Effect.errorFired])

/-- Handler `handleTrackSubscribed` (voice.ts line 303): attaches the remote
track to the audio element, builds the output analyzer, and resolves a
pending delayed SPEAKING transition. -/
def handleTrackSubscribed (s : VoiceSession) : VoiceSession × List Effect :=
  let s1 := { s with trackAttached := true, outAnalyzer := true }
  if s1.delayedSpeakingState then
    changeState { s1 with delayedSpeakingState := false } .speaking
  else
    (s1, [])

/-- Fields of an inbound `transcript` data message. -/
structure TranscriptMsg where
  text : String
  streamTimestamp : Int
  lastVoiceTimestamp : Int
  final : Bool
deriving DecidableEq, Repr

/-- Fields of an inbound `voice_synced_transcript` data message; `text` and
`delta` are optional fields of the JSON object. -/
structure VoiceSyncedMsg where
  text : Option String
  delta : Option String
  final : Bool
deriving DecidableEq, Repr

/-- Inbound data-channel messages after a successful `JSON.parse`, tagged by
their `type` field; `unknown` covers every unrecognized tag. -/
inductive DataMsg
  | pong (timestamp : Int)
  | stateMsg (st : VoiceSessionState)
  | transcript (t : TranscriptMsg)
  | voiceSyncedTranscript (m : VoiceSyncedMsg)
  | latency (kind : String) (value : Int)
  | conversationCreated (id : String)
  | unknown
deriving DecidableEq, Repr

/-- JavaScript truthiness of an optional string field (`if (msg.text)`):
`undefined` and the empty string are falsy. -/
def truthyStr : Option String → Bool
  | some t => t ≠ ""
  | none => false

/-- Handler `handleOutputTranscript` (voice.ts line 354): a truthy `text`
replaces the accumulated transcript, otherwise a truthy `delta` appends;
the observer gets the accumulated value; a final message then resets the
accumulator. -/
def handleOutputTranscript (s : VoiceSession) (m : VoiceSyncedMsg) :
    VoiceSession × List Effect :=
  let acc :=
    if truthyStr m.text then m.text.getD ""
    else if truthyStr m.delta then s.outputTranscript ++ m.delta.getD ""
    else s.outputTranscript
  let s1 := { s with outputTranscript := acc }
  let s2 := if m.final then { s1 with outputTranscript := "" } else s1
  (s2, [Effect.outputChange acc m.final])

/-- Handler `handleInputChange` (voice.ts line 347): invokes the
`onInputChange` observer. -/
def handleInputChange (s : VoiceSession) (text : String) (final : Bool) :
    VoiceSession × List Effect :=
  (s, [Effect.inputChange text final])

/-- Handler `handleLatency` (voice.ts line 366): invokes the
`onLatencyChange` observer. -/
def handleLatency (s : VoiceSession) (metric : String) (value : Int) :
    VoiceSession × List Effect :=
  (s, [Effect.latencyChange metric value])

/-- Handler `handleDataReceived` (voice.ts line 318), after a successful
parse: dispatch on the `type` tag.  A SPEAKING state message with no output
analyzer sets `delayedSpeakingState` instead of transitioning; an unknown
tag falls through every branch silently. -/
def handleDataReceived (s : VoiceSession) (m : DataMsg) :
    VoiceSession × List Effect :=
  match m with
  | .pong ts => (s, [Effect.workerRttReported ts])
  | .stateMsg st =>
    if st = VoiceSessionState.speaking ∧ s.outAnalyzer = false then
      ({ s with delayedSpeakingState := true }, [])
    else
      changeState s st
  | .transcript t =>
    handleInputChange s t.text t.final
  | .voiceSyncedTranscript m => handleOutputTranscript s m
  | .latency kind value => handleLatency s kind value
  | .conversationCreated id => ({ s with conversationId := some id }, [])
  | .unknown => (s, [])

/-- Continuation of the `room_info` branch of `handleSocketMessage` after
`await this.room.connect(...)` resolves (voice.ts lines 280..283): the room
is connected, the pinger starts, and publication is re-evaluated. -/
def handleRoomConnected (s : VoiceSession) : VoiceSession × List Effect :=
  match s.room with
  | some r =>
    if r.connState = RoomState.connecting then
      let s1 := { s with room := some { connState := RoomState.connected },
                         pinger := true }
      maybePublishLocalAudio s1
    else
      (s, [])
  | none => (s, [])

/-- Events that drive a `VoiceSession`: the public lifecycle calls and the
asynchronous callbacks.  Media-plane events (`trackSubscribed`, `dataMsg`)
can only fire while the room object that carries their listeners exists. -/
inductive Event
  | startCall
  | stopCall
  | socketOpened
  | roomInfoMsg
  | roomConnected
  | trackSubscribed
  | dataMsg (m : DataMsg)
  | socketClosed (code : Nat)
deriving DecidableEq, Repr

/-- Single step of the event-driven semantics of a `VoiceSession`. -/
def step (s : VoiceSession) (e : Event) : VoiceSession × List Effect :=
  match e with
  | .startCall => start s
  | .stopCall => stop s
  | .socketOpened => if s.socket then handleSocketOpen s else (s, [])
  | .roomInfoMsg =>
    if s.socket then
      ({ s with room := some { connState := RoomState.connecting } }, [])
    else (s, [])
  | .roomConnected => handleRoomConnected s
  | .trackSubscribed =>
    if s.room.isSome then handleTrackSubscribed s else (s, [])
  | .dataMsg m =>
    if s.room.isSome then handleDataReceived s m else (s, [])
  | .socketClosed code => handleSocketClose s code

/-- Run a `VoiceSession` from a state through a list of events. -/
def run (s : VoiceSession) (es : List Event) : VoiceSession :=
  es.foldl (fun t e => (step t e).1) s

/-! Failure-sensitive model of `stop` (voice.ts lines 169..186).  The method
body is a plain sequence of statements inside an `async` function with no
try/catch; if one statement throws (or an awaited promise rejects), the
exception propagates and none of the later statements run. -/

/-- Teardown steps of `stop`, in source order. -/
inductive StopStep
  | clearPinger
  | roomDisconnect
  | stopInAnalyzer
  | stopOutAnalyzer
  | stopLocalTrack
  | closeSocket
  | setDisconnected
deriving DecidableEq, Repr, Fintype

/-- Failure scenario: which of the teardown steps throws when executed. -/
structure StopFailures where
  clearPinger : Bool
  roomDisconnect : Bool
  stopInAnalyzer : Bool
  stopOutAnalyzer : Bool
  stopLocalTrack : Bool
  closeSocket : Bool
  setDisconnected : Bool
deriving DecidableEq, Repr

/-- Source order of the teardown steps of `stop`. -/
def stopOrder : List StopStep :=
  [StopStep.clearPinger, StopStep.roomDisconnect, StopStep.stopInAnalyzer,
   StopStep.stopOutAnalyzer, StopStep.stopLocalTrack, StopStep.closeSocket,
   StopStep.setDisconnected]

/-- Whether a given step throws in a failure scenario. -/
def StopFailures.fails (f : StopFailures) : StopStep → Bool
  | .clearPinger => f.clearPinger
  | .roomDisconnect => f.roomDisconnect
  | .stopInAnalyzer => f.stopInAnalyzer
  | .stopOutAnalyzer => f.stopOutAnalyzer
  | .stopLocalTrack => f.stopLocalTrack
  | .closeSocket => f.closeSocket
  | .setDisconnected => f.setDisconnected

/-- Run a statement sequence in order, aborting at the first statement that
throws (the aborting statement does not complete and nothing after it runs):
the propagation behavior of an exception in a try/catch-free body. -/
def runToFirstFailure (f : StopFailures) : List StopStep → List StopStep
  | [] => []
  | st :: rest =>
    if f.fails st then [] else st :: runToFirstFailure f rest

/-- Teardown steps of `stop` that run to completion in a failure scenario. -/
def stopExecuted (f : StopFailures) : List StopStep :=
  runToFirstFailure f stopOrder

/-- Failure scenario in which no step throws. -/
def noStopFailures : StopFailures :=
  { clearPinger := false, roomDisconnect := false, stopInAnalyzer := false,
    stopOutAnalyzer := false, stopLocalTrack := false, closeSocket := false,
    setDisconnected := false }

/-- Concrete session used by several witnesses: started and listening, with
a room object that is still connecting (mid `room.connect`). -/
def sessionRoomConnecting : VoiceSession :=
  { mkVoiceSession none with
      _state := VoiceSessionState.listening
      socket := true
      audioStarted := true
      started := true
      localAudioTrack := true
      inAnalyzer := true
      room := some { connState := RoomState.connecting } }

/-- Concrete session with no room object: started and listening. -/
def sessionStartedNoRoom : VoiceSession :=
  { mkVoiceSession none with
      _state := VoiceSessionState.listening
      socket := true
      audioStarted := true
      started := true
      localAudioTrack := true
      inAnalyzer := true }

/-- Concrete session ready to publish: started, local track captured, room
connected. -/
def sessionReadyToPublish : VoiceSession :=
  { sessionRoomConnecting with
      room := some { connState := RoomState.connected } }

/-- State of the session at the point inside `start` where
`maybePublishLocalAudio` is invoked: audio captured if needed, marked
started. -/
def startedSession (s : VoiceSession) : VoiceSession :=
  { (if ¬ (warmup s).1.audioStarted then startAudio (warmup s).1
      else (warmup s).1) with started := true }

/-- State of the session at the point inside the `room_info` handler where
`maybePublishLocalAudio` is invoked after `room.connect` resolved: room
connected, pinger running. -/
def roomConnectedSession (s : VoiceSession) : VoiceSession :=
  { s with room := some { connState := RoomState.connected }, pinger := true }

/-- Invariant backing C1: an output analyzer exists only after a remote
track has been attached, and the state is SPEAKING only after a remote
track has been attached. -/
def SpeakingInv (s : VoiceSession) : Prop :=
  (s.outAnalyzer = true → s.trackAttached = true) ∧
  (s._state = VoiceSessionState.speaking → s.trackAttached = true)

end FixieWeb

namespace FixieVoiceLegacy

/-! Model of the socket-close handler of the older voice client,
`src/unnamed/part_002` lines 189..202 (`VoiceSession.handleSocketClose`). -/

/-- Observable outcome of the legacy `handleSocketClose`: how many times it
calls `warmup()` (re-opening the signaling socket) and how many times it
fires the `onError` observer. -/
structure CloseOutcome where
  warmupCalls : Nat
  errorCalls : Nat
deriving DecidableEq, Repr

/-- Legacy handler `handleSocketClose`: code 1000 (normal closure) logs and
calls `warmup()` to reconnect; code 1006 is silently ignored (a Next.js
debug-mode duplicate-initialization artifact); any other code warns and
fires `onError`. -/
def handleSocketClose (code : Nat) : CloseOutcome :=
  if code = 1000 then { warmupCalls := 1, errorCalls := 0 }
  else if code = 1006 then { warmupCalls := 0, errorCalls := 0 }
  else { warmupCalls := 0, errorCalls := 1 }

end FixieVoiceLegacy

open FixieWeb

/-- C4: `stop()` is idempotent and reentrant: it can be applied to every
session state (including a not-fully-started one), it leaves the state
DISCONNECTED, it fires no error and no warning, and a second call returns
the very same state with no effects at all. -/
theorem stop_idempotent_and_safe (s : VoiceSession) :
    (stop s).1._state = VoiceSessionState.disconnected ∧
    stop (stop s).1 = ((stop s).1, []) ∧
    Effect.errorFired ∉ (stop s).2 ∧
    Effect.warned ∉ (stop s).2 := by
  by_cases h : s._state = VoiceSessionState.disconnected
  · simp [stop, changeState, h]
  · simp [stop, changeState, h, Ne.symm h]

/-- C9 (code bug): the `VoiceSession` constructor only logs — it does not
call `warmup`, so no signaling socket exists before `start()`, although the
session does begin in the DISCONNECTED state; `warmup` itself is what opens
the socket. -/
theorem construction_opens_no_socket (cid : Option String) :
    (mkVoiceSession cid).socket = false ∧
    (mkVoiceSession cid)._state = VoiceSessionState.disconnected ∧
    (warmup (mkVoiceSession cid)).1.socket = true ∧
    Effect.openedSocket ∈ (warmup (mkVoiceSession cid)).2 := by
  simp [mkVoiceSession, warmup, changeState]

/-- C3 (counterexample): close code 1006 — the benign duplicate-
initialization artifact of the claim — is not a silent no-op in the current
client: `handleSocketClose` fires the error observer and re-opens nothing;
and the legacy client re-opens the socket (calls `warmup`) on a NORMAL
closure with code 1000, which the claim says never triggers reconnection. -/
theorem socketClose_claim_fails_at_1006_and_1000 :
    (handleSocketClose (mkVoiceSession none) 1006).2.count Effect.errorFired = 1 ∧
    Effect.openedSocket ∉ (handleSocketClose (mkVoiceSession none) 1006).2 ∧
    FixieVoiceLegacy.handleSocketClose 1000 =
      { warmupCalls := 1, errorCalls := 0 } := by
  decide

/-- C3 (amended): on socket closure the current client always moves to
DISCONNECTED, fires the error observer exactly once for every close code
other than 1000 (including 1006) and never re-opens the socket; the legacy
client re-opens exactly once on code 1000, is silent on 1006, and fires the
error observer exactly once on every other code without re-opening. -/
theorem socketClose_behavior (s : VoiceSession) (code : Nat) :
    (handleSocketClose s code).1._state = VoiceSessionState.disconnected ∧
    (handleSocketClose s code).2.count Effect.errorFired
      = (if code = 1000 then 0 else 1) ∧
    Effect.openedSocket ∉ (handleSocketClose s code).2 ∧
    (FixieVoiceLegacy.handleSocketClose code).warmupCalls
      = (if code = 1000 then 1 else 0) ∧
    (FixieVoiceLegacy.handleSocketClose code).errorCalls
      = (if code = 1000 ∨ code = 1006 then 0 else 1) := by
  by_cases hst : s._state = VoiceSessionState.disconnected
  · by_cases h1000 : code = 1000 <;> by_cases h1006 : code = 1006 <;>
      simp [handleSocketClose, changeState, FixieVoiceLegacy.handleSocketClose,
        h1000, h1006, hst]
  · by_cases h1000 : code = 1000 <;> by_cases h1006 : code = 1006 <;>
      simp [handleSocketClose, changeState, FixieVoiceLegacy.handleSocketClose,
        h1000, h1006, hst, Ne.symm hst]

/-- C5 (counterexample): when `room.disconnect()` rejects inside `stop`, only
the pinger cancellation has completed; the analyzers and the local track are
not stopped, the socket is not closed and the DISCONNECTED transition does
not run — a failure in one step does prevent the others from running. -/
theorem stop_steps_abort_on_room_disconnect_failure :
    stopExecuted { noStopFailures with roomDisconnect := true } =
      [StopStep.clearPinger] ∧
    StopStep.setDisconnected ∉
      stopExecuted { noStopFailures with roomDisconnect := true } ∧
    StopStep.stopLocalTrack ∉
      stopExecuted { noStopFailures with roomDisconnect := true } := by
  decide

/-- C5 (amended): the teardown steps of `stop` run in source order and abort
at the first failing step, so the completed steps always form a prefix of
the source order, and all seven steps (the DISCONNECTED transition included)
run exactly when no step fails. -/
theorem stop_steps_run_to_first_failure :
    ∀ b1 b2 b3 b4 b5 b6 b7 : Bool,
      (∃ k : Fin 8,
        stopExecuted ⟨b1, b2, b3, b4, b5, b6, b7⟩ = stopOrder.take k) ∧
      (stopExecuted ⟨b1, b2, b3, b4, b5, b6, b7⟩ = stopOrder ↔
        ∀ st, StopFailures.fails ⟨b1, b2, b3, b4, b5, b6, b7⟩ st = false) := by
  decide

/-- C10 (counterexample): with a room object present but not yet connected
(mid `room.connect`), `interrupt` in a started session and `sendText` in the
LISTENING state do invoke `publishData` on the room: the guard in `sendData`
is only the room's existence, not its connectedness. -/
theorem send_attempts_on_unconnected_room :
    sessionRoomConnecting.room = some { connState := RoomState.connecting } ∧
    FixieWeb.interrupt sessionRoomConnecting =
      [Effect.publishData OutMsg.interrupt] ∧
    sendText sessionRoomConnecting "hi" =
      [Effect.publishData (OutMsg.inputTextMessage "hi")] := by
  decide

/-- C10 (amended): when no room object exists — for example after `start()`
but before the `room_info` message has been processed — `interrupt` in a
started session, `sendText` in the LISTENING state, and `sendData` itself
are complete no-ops: no data, no error, no warning. -/
theorem send_noop_without_room (s : VoiceSession) (text : String)
    (hroom : s.room = none) :
    (s.started = true → FixieWeb.interrupt s = []) ∧
    (s._state = VoiceSessionState.listening → sendText s text = []) ∧
    (∀ m, sendData s m = []) := by
  refine ⟨fun hs => ?_, fun hst => ?_, fun m => ?_⟩
  · simp [FixieWeb.interrupt, sendData, hroom, hs]
  · simp [sendText, sendData, hroom, hst]
  · simp [sendData, hroom]

/-- Witness for `send_noop_without_room` at a concrete started, listening
session without a room. -/
theorem send_noop_without_room_witness :
    FixieWeb.interrupt sessionStartedNoRoom = [] ∧
    sendText sessionStartedNoRoom "hello" = [] :=
  ⟨(send_noop_without_room sessionStartedNoRoom "hello" rfl).1 rfl,
   (send_noop_without_room sessionStartedNoRoom "hello" rfl).2.1 rfl⟩

/-- C7: in `handleOutputTranscript` a truthy full `text` replaces the
accumulated output transcript while a truthy `delta` (with no full text)
appends to it, the output observer receives the accumulated value, and in
particular two deltas "He" then "llo" with no full text produce the
callback value "Hello". -/
theorem voiceSyncedTranscript_accumulates (s : VoiceSession)
    (m : VoiceSyncedMsg) :
    (truthyStr m.text = true →
      (handleOutputTranscript s m).2 =
        [Effect.outputChange (m.text.getD "") m.final] ∧
      (m.final = false →
        (handleOutputTranscript s m).1.outputTranscript = m.text.getD "")) ∧
    (truthyStr m.text = false → truthyStr m.delta = true →
      (handleOutputTranscript s m).2 =
        [Effect.outputChange (s.outputTranscript ++ m.delta.getD "") m.final] ∧
      (m.final = false →
        (handleOutputTranscript s m).1.outputTranscript =
          s.outputTranscript ++ m.delta.getD "")) ∧
    (step (step sessionRoomConnecting
        (Event.dataMsg (DataMsg.voiceSyncedTranscript ⟨none, some "He", false⟩))).1
        (Event.dataMsg (DataMsg.voiceSyncedTranscript ⟨none, some "llo", false⟩))).2
      = [Effect.outputChange "Hello" false] := by
  refine ⟨fun ht => ?_, fun ht hd => ?_, by decide⟩
  · constructor
    · simp [handleOutputTranscript, ht]
    · intro hfin
      simp [handleOutputTranscript, ht, hfin]
  · constructor
    · simp [handleOutputTranscript, ht, hd]
    · intro hfin
      simp [handleOutputTranscript, ht, hd, hfin]

/-- Witness for `voiceSyncedTranscript_accumulates`: a single delta "He"
appended to the empty accumulator yields the callback value "He". -/
theorem voiceSyncedTranscript_accumulates_witness :
    (handleOutputTranscript sessionRoomConnecting ⟨none, some "He", false⟩).2 =
      [Effect.outputChange "He" false] := by
  simpa using
    ((voiceSyncedTranscript_accumulates sessionRoomConnecting
        ⟨none, some "He", false⟩).2.1 (by decide) (by decide)).1

/-- C8 (counterexample): the conversation identifier is not stable once
assigned: a caller-assigned identifier "abc" is overwritten by a
`conversation_created` message carrying "xyz" in a reachable trace. -/
theorem conversationId_not_stable :
    (mkVoiceSession (some "abc")).conversationId = some "abc" ∧
    (run (mkVoiceSession (some "abc"))
        [Event.startCall, Event.socketOpened, Event.roomInfoMsg,
         Event.dataMsg (DataMsg.conversationCreated "xyz")]).conversationId
      = some "xyz" ∧
    (some "xyz" : Option String) ≠ some "abc" := by
  decide

/-- C8 (amended): a `conversation_created` message assigns the conversation
identifier, so subsequent reads return it even if the caller passed none,
and no other inbound data message alters the identifier; but the assignment
is an unconditional overwrite — a later `conversation_created` replaces any
previously assigned value, including a caller-assigned one. -/
theorem conversationCreated_assigns_id (s : VoiceSession) (id : String)
    (hroom : s.room.isSome = true) :
    (step s (Event.dataMsg (DataMsg.conversationCreated id))).1.conversationId
      = some id ∧
    (∀ m : DataMsg, (∀ j, m ≠ DataMsg.conversationCreated j) →
      (handleDataReceived s m).1.conversationId = s.conversationId) ∧
    (∀ j, (step (step s (Event.dataMsg (DataMsg.conversationCreated id))).1
        (Event.dataMsg (DataMsg.conversationCreated j))).1.conversationId
      = some j) := by
  refine ⟨by simp [step, hroom, handleDataReceived], fun m hm => ?_, fun j => ?_⟩
  · cases m with
    | pong ts => simp [handleDataReceived]
    | stateMsg st =>
      simp only [handleDataReceived]
      split
      · simp
      · simp [changeState]
        split <;> simp
    | transcript t => simp [handleDataReceived, handleInputChange]
    | voiceSyncedTranscript v =>
      simp only [handleDataReceived, handleOutputTranscript]
      split <;> simp
    | latency kind value => simp [handleDataReceived, handleLatency]
    | conversationCreated i => exact absurd rfl (hm i)
    | unknown => simp [handleDataReceived]
  · simp [step, hroom, handleDataReceived]

/-- Witness for `conversationCreated_assigns_id`: a session constructed with
no conversation identifier reads back "abc" after `conversation_created`. -/
theorem conversationCreated_assigns_id_witness :
    (step sessionRoomConnecting
        (Event.dataMsg (DataMsg.conversationCreated "abc"))).1.conversationId
      = some "abc" :=
  (conversationCreated_assigns_id sessionRoomConnecting "abc" rfl).1

/-- Helper: `changeState` emits either nothing or exactly one state-change
callback, and leaves every field other than `_state` and the mute flag
untouched. -/
theorem changeState_effects_shape (s : VoiceSession) (st : VoiceSessionState) :
    ((changeState s st).2 = [] ∨
      (changeState s st).2 = [Effect.stateChange st]) ∧
    (changeState s st).1.started = s.started ∧
    (changeState s st).1.room = s.room ∧
    (changeState s st).1.localAudioTrack = s.localAudioTrack ∧
    (changeState s st).1.audioStarted = s.audioStarted := by
  unfold changeState
  split <;> simp

/-- Helper: `warmup` emits either nothing or the socket-open effect followed
by the CONNECTING state change, and leaves the started/room/track/audio
fields untouched. -/
theorem warmup_effects_shape (s : VoiceSession) :
    ((warmup s).2 = [] ∨
      (warmup s).2 =
        [Effect.openedSocket, Effect.stateChange VoiceSessionState.connecting]) ∧
    (warmup s).1.started = s.started ∧
    (warmup s).1.room = s.room ∧
    (warmup s).1.localAudioTrack = s.localAudioTrack ∧
    (warmup s).1.audioStarted = s.audioStarted := by
  unfold warmup changeState
  split
  · simp
  · rename_i hdis
    rw [not_not] at hdis
    dsimp only
    split
    · simp
    · rename_i hsame
      rw [not_not] at hsame
      rw [hdis] at hsame
      cases hsame

/-- Helper: publishTrack is emitted by `maybePublishLocalAudio` exactly when
the started/connected/track conjunction holds; the effects are nothing, or
the publish alone, or the publish followed by the IDLE state change; and the
started/room/track fields are untouched. -/
theorem maybePublish_effects_shape (s : VoiceSession) :
    (Effect.publishTrack ∈ (maybePublishLocalAudio s).2 ↔
      s.started = true ∧ s.room = some { connState := RoomState.connected } ∧
        s.localAudioTrack = true) ∧
    ((maybePublishLocalAudio s).2 = [] ∨
      (maybePublishLocalAudio s).2 = [Effect.publishTrack] ∨
      (maybePublishLocalAudio s).2 =
        [Effect.publishTrack, Effect.stateChange VoiceSessionState.idle]) ∧
    (maybePublishLocalAudio s).1.started = s.started ∧
    (maybePublishLocalAudio s).1.room = s.room ∧
    (maybePublishLocalAudio s).1.localAudioTrack = s.localAudioTrack ∧
    (maybePublishLocalAudio s).1.audioStarted = s.audioStarted := by
  rcases hroom : s.room with _ | rc
  · simp [maybePublishLocalAudio, hroom]
  · obtain ⟨rcs⟩ := rc
    simp only [maybePublishLocalAudio, hroom]
    split
    · rename_i hcond
      obtain ⟨hs, hc, ht⟩ := hcond
      subst hc
      unfold changeState
      split <;> simp [hroom, hs, ht]
    · rename_i hcond
      constructor
      · simp only [List.not_mem_nil, false_iff]
        rintro ⟨hs, hc, ht⟩
        rw [Option.some.injEq, Room.mk.injEq] at hc
        exact hcond ⟨hs, hc, ht⟩
      · simp [hroom]

/-- Helper: `changeState` never emits a publishTrack effect. -/
theorem changeState_no_pub (s : VoiceSession) (st : VoiceSessionState) :
    Effect.publishTrack ∉ (changeState s st).2 := by
  rcases (changeState_effects_shape s st).1 with h | h <;> simp [h]

/-- Helper: `warmup` never emits a publishTrack effect. -/
theorem warmup_no_pub (s : VoiceSession) :
    Effect.publishTrack ∉ (warmup s).2 := by
  rcases (warmup_effects_shape s).1 with h | h <;> simp [h]

/-- Helper: `warmup` never emits a publishTrack effect (count form). -/
theorem warmup_count0 (s : VoiceSession) :
    (warmup s).2.count Effect.publishTrack = 0 := by
  rcases (warmup_effects_shape s).1 with h | h <;> rw [h] <;> decide

/-- Helper: `maybePublishLocalAudio` emits at most one publishTrack. -/
theorem maybePublish_count_le1 (s : VoiceSession) :
    (maybePublishLocalAudio s).2.count Effect.publishTrack ≤ 1 := by
  rcases (maybePublish_effects_shape s).2.1 with h | h | h <;> rw [h] <;> decide

/-- Helper: `handleDataReceived` never emits a publishTrack effect. -/
theorem handleDataReceived_no_pub (s : VoiceSession) (m : DataMsg) :
    Effect.publishTrack ∉ (handleDataReceived s m).2 := by
  cases m with
  | pong ts => simp [handleDataReceived]
  | stateMsg st =>
    simp only [handleDataReceived]
    split
    · simp
    · exact changeState_no_pub s st
  | transcript t => simp [handleDataReceived, handleInputChange]
  | voiceSyncedTranscript v => simp [handleDataReceived, handleOutputTranscript]
  | latency kind value => simp [handleDataReceived, handleLatency]
  | conversationCreated i => simp [handleDataReceived]
  | unknown => simp [handleDataReceived]

/-- Helper: `handleTrackSubscribed` never emits a publishTrack effect. -/
theorem handleTrackSubscribed_no_pub (s : VoiceSession) :
    Effect.publishTrack ∉ (handleTrackSubscribed s).2 := by
  simp only [handleTrackSubscribed]
  split
  · exact changeState_no_pub _ _
  · simp

/-- Helper: `handleSocketOpen` never emits a publishTrack effect. -/
theorem handleSocketOpen_no_pub (s : VoiceSession) :
    Effect.publishTrack ∉ (handleSocketOpen s).2 := by
  rcases (changeState_effects_shape s VoiceSessionState.connected).1 with h | h <;>
    simp [handleSocketOpen, h]

/-- Helper: `handleSocketClose` never emits a publishTrack effect. -/
theorem handleSocketClose_no_pub (s : VoiceSession) (code : Nat) :
    Effect.publishTrack ∉ (handleSocketClose s code).2 := by
  rcases (changeState_effects_shape s VoiceSessionState.disconnected).1 with h | h <;>
    · simp only [handleSocketClose]
      split <;> simp [h]

/-- Helper: `stop` never emits a publishTrack effect. -/
theorem stop_no_pub (s : VoiceSession) :
    Effect.publishTrack ∉ (stop s).2 :=
  changeState_no_pub _ _

/-- Helper: `start` always leaves the session marked started. -/
theorem start_sets_started (s : VoiceSession) : (start s).1.started = true := by
  simp only [start]
  split
  · assumption
  · exact (maybePublish_effects_shape _).2.2.1

/-- Helper: `start` on an already-started session publishes nothing and
emits the warning. -/
theorem start_on_started (s : VoiceSession) (h : s.started = true) :
    (start s).2.count Effect.publishTrack = 0 ∧
    Effect.warned ∈ (start s).2 := by
  have hst : (warmup s).1.started = true := by
    rw [(warmup_effects_shape s).2.1]
    exact h
  simp only [start]
  rw [if_pos hst]
  constructor
  · rw [List.count_append, warmup_count0]
    decide
  · simp

/-- Helper: a single `start` emits at most one publishTrack. -/
theorem start_publish_le_one (s : VoiceSession) :
    (start s).2.count Effect.publishTrack ≤ 1 := by
  simp only [start]
  split
  · rw [List.count_append, warmup_count0]
    decide
  · rw [List.count_append, warmup_count0]
    simpa using maybePublish_count_le1 _

/-- Helper: `start` unfolded through its intermediate session states. -/
theorem start_eq (s : VoiceSession) :
    start s =
      if (warmup s).1.started then ((warmup s).1, (warmup s).2 ++ [Effect.warned])
      else
        ((maybePublishLocalAudio (startedSession s)).1,
          (warmup s).2 ++ (maybePublishLocalAudio (startedSession s)).2) := rfl

/-- Helper: `handleRoomConnected` unfolded through its intermediate session
state. -/
theorem handleRoomConnected_eq (s : VoiceSession) :
    handleRoomConnected s =
      match s.room with
      | some r =>
        if r.connState = RoomState.connecting then
          maybePublishLocalAudio (roomConnectedSession s)
        else (s, [])
      | none => (s, []) := rfl

/-- Helper: every event that emits a publishTrack effect leaves the session
started, with a connected room and a local track. -/
theorem step_publish_only_when_ready (s : VoiceSession) (e : Event)
    (hp : Effect.publishTrack ∈ (step s e).2) :
    (step s e).1.started = true ∧
    (step s e).1.room = some { connState := RoomState.connected } ∧
    (step s e).1.localAudioTrack = true := by
  cases e with
  | startCall =>
    simp only [step] at hp ⊢
    rw [start_eq] at hp ⊢
    by_cases hst : (warmup s).1.started = true
    · rw [if_pos hst] at hp
      rw [List.mem_append] at hp
      rcases hp with hp | hp
      · exact absurd hp (warmup_no_pub s)
      · simp at hp
    · rw [if_neg hst] at hp ⊢
      rw [List.mem_append] at hp
      have hp2 : Effect.publishTrack ∈
          (maybePublishLocalAudio (startedSession s)).2 := by
        rcases hp with hp | hp
        · exact absurd hp (warmup_no_pub s)
        · exact hp
      obtain ⟨h1, h2, h3⟩ :=
        (maybePublish_effects_shape (startedSession s)).1.mp hp2
      refine ⟨?_, ?_, ?_⟩
      · rw [(maybePublish_effects_shape (startedSession s)).2.2.1]
        exact h1
      · rw [(maybePublish_effects_shape (startedSession s)).2.2.2.1]
        exact h2
      · rw [(maybePublish_effects_shape (startedSession s)).2.2.2.2.1]
        exact h3
  | stopCall => exact absurd hp (stop_no_pub s)
  | socketOpened =>
    simp only [step] at hp ⊢
    by_cases hs : s.socket = true
    · rw [if_pos hs] at hp
      exact absurd hp (handleSocketOpen_no_pub s)
    · rw [if_neg hs] at hp
      simp at hp
  | roomInfoMsg =>
    simp only [step] at hp
    split at hp <;> simp at hp
  | roomConnected =>
    simp only [step] at hp ⊢
    rw [handleRoomConnected_eq] at hp ⊢
    rcases hroom : s.room with _ | r
    · simp only [hroom] at hp
      simp at hp
    · simp only [hroom] at hp ⊢
      by_cases hc : r.connState = RoomState.connecting
      · rw [if_pos hc] at hp ⊢
        obtain ⟨h1, h2, h3⟩ :=
          (maybePublish_effects_shape (roomConnectedSession s)).1.mp hp
        refine ⟨?_, ?_, ?_⟩
        · rw [(maybePublish_effects_shape (roomConnectedSession s)).2.2.1]
          exact h1
        · rw [(maybePublish_effects_shape (roomConnectedSession s)).2.2.2.1]
          exact h2
        · rw [(maybePublish_effects_shape (roomConnectedSession s)).2.2.2.2.1]
          exact h3
      · rw [if_neg hc] at hp
        simp at hp
  | trackSubscribed =>
    simp only [step] at hp ⊢
    split at hp
    · exact absurd hp (handleTrackSubscribed_no_pub s)
    · simp at hp
  | dataMsg m =>
    simp only [step] at hp
    split at hp
    · exact absurd hp (handleDataReceived_no_pub s m)
    · simp at hp
  | socketClosed code => exact absurd hp (handleSocketClose_no_pub s code)

/-- C2: a local audio track is published exactly when the three conditions
jointly hold — the caller has started the session, the room is connected,
and a captured local track exists; every event that publishes leaves the
session satisfying that conjunction; a second `start` without an
intervening `stop` is a warning-level no-op that publishes nothing; and two
consecutive `start` calls publish at most once. -/
theorem localAudio_published_when_ready (s : VoiceSession) :
    (Effect.publishTrack ∈ (maybePublishLocalAudio s).2 ↔
      s.started = true ∧ s.room = some { connState := RoomState.connected } ∧
        s.localAudioTrack = true) ∧
    (∀ e, Effect.publishTrack ∈ (step s e).2 →
      (step s e).1.started = true ∧
      (step s e).1.room = some { connState := RoomState.connected } ∧
      (step s e).1.localAudioTrack = true) ∧
    (s.started = true →
      Effect.warned ∈ (start s).2 ∧
      (start s).2.count Effect.publishTrack = 0) ∧
    ((start s).2.count Effect.publishTrack +
        (start (start s).1).2.count Effect.publishTrack ≤ 1) := by
  refine ⟨(maybePublish_effects_shape s).1, step_publish_only_when_ready s,
    fun h => ⟨(start_on_started s h).2, (start_on_started s h).1⟩, ?_⟩
  have h2 := (start_on_started _ (start_sets_started s)).1
  rw [h2]
  have h1 := start_publish_le_one s
  omega

/-- Witness for `localAudio_published_when_ready`: a started session with a
connected room and a captured track publishes its track, and a second
`start` on it warns. -/
theorem localAudio_published_when_ready_witness :
    Effect.publishTrack ∈ (maybePublishLocalAudio sessionReadyToPublish).2 ∧
    Effect.warned ∈ (start sessionReadyToPublish).2 :=
  ⟨(localAudio_published_when_ready sessionReadyToPublish).1.mpr ⟨rfl, rfl, rfl⟩,
   ((localAudio_published_when_ready sessionReadyToPublish).2.2.1 rfl).1⟩

/-- Helper: `changeState` always ends in the requested state (the no-op
branch is taken exactly when the session is already there). -/
theorem changeState_state (s : VoiceSession) (st : VoiceSessionState) :
    (changeState s st).1._state = st := by
  unfold changeState
  split
  · rfl
  · rename_i h
    rw [not_not] at h
    exact h.symm

/-- Helper: `changeState` leaves the output analyzer and the attach history
untouched. -/
theorem changeState_keeps (s : VoiceSession) (st : VoiceSessionState) :
    (changeState s st).1.outAnalyzer = s.outAnalyzer ∧
    (changeState s st).1.trackAttached = s.trackAttached := by
  unfold changeState
  split <;> simp

/-- Helper: `changeState` preserves `SpeakingInv` whenever the target state
being SPEAKING implies the track is attached. -/
theorem speakingInv_changeState (s : VoiceSession) (st : VoiceSessionState)
    (h : SpeakingInv s)
    (hst : st = VoiceSessionState.speaking → s.trackAttached = true) :
    SpeakingInv (changeState s st).1 := by
  obtain ⟨k1, k2⟩ := changeState_keeps s st
  constructor
  · intro ho
    rw [k1] at ho
    rw [k2]
    exact h.1 ho
  · intro hsp
    rw [changeState_state] at hsp
    rw [k2]
    exact hst hsp

/-- Helper: `warmup` preserves `SpeakingInv`. -/
theorem speakingInv_warmup (s : VoiceSession) (h : SpeakingInv s) :
    SpeakingInv (warmup s).1 := by
  unfold warmup
  split
  · exact h
  · exact speakingInv_changeState _ _ h (fun hcs => absurd hcs (by decide))

/-- Helper: `maybePublishLocalAudio` preserves `SpeakingInv`. -/
theorem speakingInv_maybePublish (s : VoiceSession) (h : SpeakingInv s) :
    SpeakingInv (maybePublishLocalAudio s).1 := by
  unfold maybePublishLocalAudio
  split
  · split
    · exact speakingInv_changeState _ _ h (fun hcs => absurd hcs (by decide))
    · exact h
  · exact h

/-- Helper: the mid-`start` session state satisfies `SpeakingInv`. -/
theorem speakingInv_startedSession (s : VoiceSession) (h : SpeakingInv s) :
    SpeakingInv (startedSession s) := by
  have hw := speakingInv_warmup s h
  unfold startedSession
  split
  · exact hw
  · exact hw

/-- Helper: `start` preserves `SpeakingInv`. -/
theorem speakingInv_start (s : VoiceSession) (h : SpeakingInv s) :
    SpeakingInv (start s).1 := by
  rw [start_eq]
  split
  · exact speakingInv_warmup s h
  · exact speakingInv_maybePublish _ (speakingInv_startedSession s h)

/-- Helper: `stop` re-establishes `SpeakingInv` from any state. -/
theorem speakingInv_stop (s : VoiceSession) : SpeakingInv (stop s).1 := by
  unfold stop
  constructor
  · rw [(changeState_keeps _ _).1]
    simp
  · rw [changeState_state]
    simp

/-- Helper: `handleSocketClose` preserves `SpeakingInv`. -/
theorem speakingInv_handleSocketClose (s : VoiceSession) (code : Nat)
    (h : SpeakingInv s) : SpeakingInv (handleSocketClose s code).1 := by
  unfold handleSocketClose
  split <;> exact speakingInv_changeState _ _ h (fun hcs => absurd hcs (by decide))

/-- Helper: `handleTrackSubscribed` establishes `SpeakingInv` outright: it
attaches the track before any state change. -/
theorem speakingInv_handleTrackSubscribed (s : VoiceSession) :
    SpeakingInv (handleTrackSubscribed s).1 := by
  simp only [handleTrackSubscribed]
  split
  · constructor
    · intro _
      rw [(changeState_keeps _ _).2]
    · intro _
      rw [(changeState_keeps _ _).2]
  · exact ⟨fun _ => rfl, fun _ => rfl⟩

/-- Helper: `handleOutputTranscript` only changes the transcript
accumulator. -/
theorem handleOutputTranscript_keeps (s : VoiceSession) (v : VoiceSyncedMsg) :
    (handleOutputTranscript s v).1.outAnalyzer = s.outAnalyzer ∧
    (handleOutputTranscript s v).1.trackAttached = s.trackAttached ∧
    (handleOutputTranscript s v).1._state = s._state := by
  unfold handleOutputTranscript
  dsimp only
  split <;> simp

/-- Helper: `handleDataReceived` preserves `SpeakingInv`. -/
theorem speakingInv_handleDataReceived (s : VoiceSession) (m : DataMsg)
    (h : SpeakingInv s) : SpeakingInv (handleDataReceived s m).1 := by
  cases m with
  | pong ts => exact h
  | stateMsg st =>
    simp only [handleDataReceived]
    split
    · exact h
    · rename_i hcond
      apply speakingInv_changeState s st h
      intro hsp
      have hnf : ¬ s.outAnalyzer = false := fun hf => hcond ⟨hsp, hf⟩
      have ho : s.outAnalyzer = true := by
        cases hb : s.outAnalyzer
        · exact absurd hb hnf
        · rfl
      exact h.1 ho
  | transcript t => exact h
  | voiceSyncedTranscript v =>
    show SpeakingInv (handleOutputTranscript s v).1
    obtain ⟨k1, k2, k3⟩ := handleOutputTranscript_keeps s v
    constructor
    · intro ho
      rw [k1] at ho
      rw [k2]
      exact h.1 ho
    · intro hsp
      rw [k3] at hsp
      rw [k2]
      exact h.2 hsp
  | latency kind value => exact h
  | conversationCreated i => exact h
  | unknown => exact h

/-- Helper: `handleRoomConnected` preserves `SpeakingInv`. -/
theorem speakingInv_handleRoomConnected (s : VoiceSession) (h : SpeakingInv s) :
    SpeakingInv (handleRoomConnected s).1 := by
  rw [handleRoomConnected_eq]
  cases hroom : s.room with
  | none => simp only [hroom]; exact h
  | some r =>
    simp only [hroom]
    split
    · exact speakingInv_maybePublish _ h
    · exact h

/-- Helper: every event preserves `SpeakingInv`. -/
theorem speakingInv_step (s : VoiceSession) (e : Event) (h : SpeakingInv s) :
    SpeakingInv (step s e).1 := by
  cases e with
  | startCall => exact speakingInv_start s h
  | stopCall => exact speakingInv_stop s
  | socketOpened =>
    simp only [step]
    split
    · exact speakingInv_changeState _ _ h (fun hcs => absurd hcs (by decide))
    · exact h
  | roomInfoMsg =>
    simp only [step]
    split
    · exact h
    · exact h
  | roomConnected => exact speakingInv_handleRoomConnected s h
  | trackSubscribed =>
    simp only [step]
    split
    · exact speakingInv_handleTrackSubscribed s
    · exact h
  | dataMsg m =>
    simp only [step]
    split
    · exact speakingInv_handleDataReceived s m h
    · exact h
  | socketClosed code => exact speakingInv_handleSocketClose s code h

/-- Helper: `SpeakingInv` holds along every run. -/
theorem speakingInv_run (s : VoiceSession) (es : List Event)
    (h : SpeakingInv s) : SpeakingInv (run s es) := by
  induction es generalizing s with
  | nil => exact h
  | cons e rest ih => exact ih _ (speakingInv_step s e h)

/-- C1: an inbound SPEAKING state message that arrives while no output
analyzer exists leaves the visible state unchanged, fires no callback at
all, and sets the pending flag; the next track-subscribed event then makes
the state SPEAKING (with a state-change callback) without any further
inbound message; and in every state reachable from a fresh session, the
state is SPEAKING only if a remote track has been subscribed and attached
to playback. -/
theorem deferred_speaking_until_track (s : VoiceSession) (cid : Option String)
    (es : List Event) (hroom : s.room.isSome = true)
    (hout : s.outAnalyzer = false)
    (hne : s._state ≠ VoiceSessionState.speaking) :
    (step s (Event.dataMsg (DataMsg.stateMsg VoiceSessionState.speaking))).1._state
      = s._state ∧
    (step s (Event.dataMsg (DataMsg.stateMsg VoiceSessionState.speaking))).2
      = [] ∧
    (step s (Event.dataMsg
        (DataMsg.stateMsg VoiceSessionState.speaking))).1.delayedSpeakingState
      = true ∧
    (step (step s (Event.dataMsg (DataMsg.stateMsg VoiceSessionState.speaking))).1
        Event.trackSubscribed).1._state = VoiceSessionState.speaking ∧
    Effect.stateChange VoiceSessionState.speaking ∈
      (step (step s (Event.dataMsg (DataMsg.stateMsg VoiceSessionState.speaking))).1
        Event.trackSubscribed).2 ∧
    ((run (mkVoiceSession cid) es)._state = VoiceSessionState.speaking →
      (run (mkVoiceSession cid) es).trackAttached = true) := by
  have hstep : step s (Event.dataMsg (DataMsg.stateMsg VoiceSessionState.speaking)) =
      ({ s with delayedSpeakingState := true }, []) := by
    simp only [step]
    rw [if_pos hroom]
    simp [handleDataReceived, hout]
  have htrack : step ({ s with delayedSpeakingState := true }) Event.trackSubscribed =
      changeState
        { s with
          delayedSpeakingState := false
          trackAttached := true
          outAnalyzer := true } VoiceSessionState.speaking := by
    simp only [step]
    rw [if_pos hroom]
    simp [handleTrackSubscribed]
  refine ⟨by rw [hstep], by rw [hstep], by rw [hstep], ?_, ?_, ?_⟩
  · rw [hstep]
    rw [htrack]
    exact changeState_state _ _
  · rw [hstep]
    rw [htrack]
    unfold changeState
    rw [if_pos (Ne.symm hne)]
    simp
  · intro hsp
    have hinv := speakingInv_run (mkVoiceSession cid) es
      ⟨by simp [mkVoiceSession], by simp [mkVoiceSession]⟩
    exact hinv.2 hsp

/-- Witness for `deferred_speaking_until_track` at a concrete listening
session with a room and no output analyzer. -/
theorem deferred_speaking_until_track_witness :
    (step sessionRoomConnecting
        (Event.dataMsg (DataMsg.stateMsg VoiceSessionState.speaking))).1._state
      = sessionRoomConnecting._state ∧
    (step (step sessionRoomConnecting
        (Event.dataMsg (DataMsg.stateMsg VoiceSessionState.speaking))).1
        Event.trackSubscribed).1._state = VoiceSessionState.speaking :=
  ⟨(deferred_speaking_until_track sessionRoomConnecting none [Event.startCall]
      rfl rfl (by decide)).1,
   (deferred_speaking_until_track sessionRoomConnecting none [Event.startCall]
      rfl rfl (by decide)).2.2.2.1⟩
